import Mathlib

/-!
EnergyPlus: conduction transfer function driver and building-surface ground
temperatures.

A shallow embedding of

* `src/EnergyPlus/ConductionTransferFunctionCalc.cc`
  (`InitConductionTransferFunctions`, `ReportCTFs`), and
* `src/EnergyPlus/GroundTemperatureModeling/SiteBuildingSurfaceGroundTemperatures.cc`
  (`BuildingSurfaceGTMFactory`, `getGroundTemp`, `getGroundTempAtTimeInSeconds`,
  `getGroundTempAtTimeInMonths`).

Module-level and static variables become fields of an explicit state that is
passed in and returned.  Calls whose order matters are recorded in a trace.
`Real64` values are exact rationals; floating-point rounding is not modelled.
`int` values are unbounded integers; no count here comes near the 32-bit range.
-/

namespace EnergyPlus

/-! ## Definitions: conduction transfer function driver -/

namespace ConductionTransferFunctionCalc

/-- Construction record.  The declaration (`Construction.hh`) is not among the
sources; the driver and the report writer read only `IsUsedCTF`, and `Name`
tells constructions apart. -/
structure ConstructionProps where
  Name : String
  IsUsedCTF : Bool
  deriving DecidableEq, Repr

/-- Modelled from the spec: what one call
`construction.calculateTransferFunction(ErrorsFound, DoCTFErrorReport)` does.
The method lives in `Construction.cc`, which is not among the sources.  Per
section 4.5 each solve attempt independently succeeds or fails and the two flags
are accumulated: a call may set a flag and never lowers one.  `construction` is
the receiver after the call, `ErrorsFound` says that the call sets the error
flag, `DoCTFErrorReport` that it sets the detailed-report flag. -/
structure SolveAttempt where
  construction : ConstructionProps
  ErrorsFound : Bool
  DoCTFErrorReport : Bool
  deriving DecidableEq, Repr

/-- Routines the two functions call that are defined elsewhere in the program:
the per-construction solve, the per-construction report (the text it prints to
the `eio` file, given the construction and `cCounter`), and
`General::ScanForReports` (the value it stores in `DoReport` for the given
report name and key). -/
structure Collaborators where
  calculateTransferFunction : ConstructionProps → SolveAttempt
  reportTransferFunction : ConstructionProps → Int → List String
  ScanForReports : String → String → Bool

/-- Calls that are observable from outside, in the order they happen. -/
inductive Event where
  | calculateTransferFunction (construction : ConstructionProps)
  | ReportCTFs (DoReportBecauseError : Bool)
  | print (text : String)
  | reportTransferFunction (construction : ConstructionProps) (cCounter : Int)
  | ShowFatalError (message : String)
  deriving DecidableEq, Repr

/-- Program state the driver touches: the function-local `static bool ErrorsFound`
of `InitConductionTransferFunctions`, `dataConstruction.Construct`, the text
written to `outputFiles.eio`, and the trace of calls. -/
structure State where
  ErrorsFound : Bool
  Construct : List ConstructionProps
  eio : List String
  trace : List Event
  deriving DecidableEq, Repr

/-- State of a process in which `InitConductionTransferFunctions` has not run
yet: the static flag holds its initial value `false`. -/
def State.fresh (Construct : List ConstructionProps) : State :=
  { ErrorsFound := false, Construct := Construct, eio := [], trace := [] }

/-- Result of running the driver: the state at the point where the run ends, and
the message of the fatal error if `ShowFatalError` was called; `none` stands
for a normal return to the caller. -/
structure Outcome where
  state : State
  fatal : Option String
  deriving DecidableEq, Repr

/-- The call `print(outputFiles.eio, text)`: appends the text to the report file. -/
def print (st : State) (text : String) : State :=
  { st with eio := st.eio ++ [text], trace := st.trace ++ [Event.print text] }

/-- First format string of `ReportCTFs` after formatting (`{{` prints `{`). -/
def headerConstructionCTF : String :=
  "! <Construction CTF>,Construction Name,Index,#Layers,#CTFs,Time Step \x7bhours\x7d,ThermalConductance " ++
  "\x7bw/m2-K\x7d,OuterThermalAbsorptance,InnerThermalAbsorptance,OuterSolarAbsorptance,InnerSolarAbsorptance,Roughness\n"

/-- Second format string of `ReportCTFs` after formatting. -/
def headerMaterialCTFSummary : String :=
  "! <Material CTF Summary>,Material Name,Thickness \x7bm\x7d,Conductivity \x7bw/m-K\x7d,Density \x7bkg/m3\x7d,Specific Heat " ++
  "\x7bJ/kg-K\x7d,ThermalResistance \x7bm2-K/w\x7d\n"

/-- Third format string of `ReportCTFs` after formatting. -/
def headerMaterialAir : String :=
  "! <Material:Air>,Material Name,ThermalResistance \x7bm2-K/w\x7d\n"

/-- Fourth format string of `ReportCTFs`. -/
def headerCTF : String :=
  "! <CTF>,Time,Outside,Cross,Inside,Flux (except final one)\n"

/-- The `for` loop of `ReportCTFs` over the remaining constructions, with the
current value of `cCounter`. -/
def ReportCTFs.loop (deps : Collaborators) : List ConstructionProps → Int → State → State
  | [], _, st => st
  | construction :: rest, cCounter, st =>
    let cCounter := cCounter + 1
    if !construction.IsUsedCTF then
      ReportCTFs.loop deps rest cCounter st
    else
      ReportCTFs.loop deps rest cCounter
        { st with
          eio := st.eio ++ deps.reportTransferFunction construction cCounter
          trace := st.trace ++ [Event.reportTransferFunction construction cCounter] }

/-- Function `ReportCTFs(outputFiles, DoReportBecauseError)`. -/
def ReportCTFs (deps : Collaborators) (st : State) (DoReportBecauseError : Bool) : State :=
  let st := { st with trace := st.trace ++ [Event.ReportCTFs DoReportBecauseError] }
  let DoReport := deps.ScanForReports "Constructions" "Constructions"
  if DoReport || DoReportBecauseError then
    let st := print st headerConstructionCTF
    let st := print st headerMaterialCTFSummary
    let st := print st headerMaterialAir
    let st := print st headerCTF
    ReportCTFs.loop deps st.Construct 0 st
  else
    st

/-- Variables of the `for` loop of `InitConductionTransferFunctions`: the
constructions already visited (as the calls left them), the two flags, and the
trace. -/
structure SolveLoop where
  Construct : List ConstructionProps
  ErrorsFound : Bool
  DoCTFErrorReport : Bool
  trace : List Event
  deriving DecidableEq, Repr

/-- The `for` loop of `InitConductionTransferFunctions` over the remaining
constructions. -/
def InitConductionTransferFunctions.loop (deps : Collaborators) :
    List ConstructionProps → SolveLoop → SolveLoop
  | [], v => v
  | construction :: rest, v =>
    let r := deps.calculateTransferFunction construction
    InitConductionTransferFunctions.loop deps rest
      { Construct := v.Construct ++ [r.construction]
        ErrorsFound := v.ErrorsFound || r.ErrorsFound
        DoCTFErrorReport := v.DoCTFErrorReport || r.DoCTFErrorReport
        trace := v.trace ++ [Event.calculateTransferFunction construction] }

/-- Modelled from the spec: the call `ShowFatalError(message)`.  The routine
lives in `UtilityRoutines`, which is not among the sources.  Sections 2, 4.5 and
6 say that the fatal outcome terminates the host process: the call is recorded
and the run ends there, without a return to the caller. -/
def ShowFatalError (st : State) (message : String) : Outcome :=
  { state := { st with trace := st.trace ++ [Event.ShowFatalError message] }
    fatal := some message }

/-- Function `InitConductionTransferFunctions(outputFiles)`. -/
def InitConductionTransferFunctions (deps : Collaborators) (st : State) : Outcome :=
  let v := InitConductionTransferFunctions.loop deps st.Construct
    { Construct := [], ErrorsFound := st.ErrorsFound, DoCTFErrorReport := false, trace := st.trace }
  let st := { st with Construct := v.Construct, ErrorsFound := v.ErrorsFound, trace := v.trace }
  let st := ReportCTFs deps st v.DoCTFErrorReport
  if st.ErrorsFound then
    ShowFatalError st "Program terminated for reasons listed (InitConductionTransferFunctions)"
  else
    { state := st, fatal := none }

/-- Constructions on which `calculateTransferFunction` was invoked, in call order. -/
def calculateTransferFunctionCalls : List Event → List ConstructionProps
  | [] => []
  | Event.calculateTransferFunction c :: rest => c :: calculateTransferFunctionCalls rest
  | _ :: rest => calculateTransferFunctionCalls rest

/-- Arguments of the `reportTransferFunction` calls, in call order. -/
def reportTransferFunctionCalls : List Event → List (ConstructionProps × Int)
  | [] => []
  | Event.reportTransferFunction c n :: rest => (c, n) :: reportTransferFunctionCalls rest
  | _ :: rest => reportTransferFunctionCalls rest

/-- Arguments of the `ReportCTFs` calls, in call order. -/
def ReportCTFsCalls : List Event → List Bool
  | [] => []
  | Event.ReportCTFs d :: rest => d :: ReportCTFsCalls rest
  | _ :: rest => ReportCTFsCalls rest

/-- A write to the report file: a `print` or a `reportTransferFunction` call. -/
def Event.isReportWrite : Event → Bool
  | Event.print _ => true
  | Event.reportTransferFunction _ _ => true
  | _ => false

/-- Constructions with `IsUsedCTF` set, each with its 1-based position in the
whole collection. -/
def usedWithPosition (Construct : List ConstructionProps) : List (ConstructionProps × Int) :=
  (Construct.enum.filter (fun p => p.2.IsUsedCTF)).map (fun p => (p.2, (p.1 : Int) + 1))

/-- Sample collaborators: the solve of the construction named `C3` fails and
sets both flags, every other solve succeeds; each reported construction prints
one line; the user did not ask for the `Constructions` report. -/
def sampleDeps : Collaborators :=
  { calculateTransferFunction := fun c =>
      { construction := c, ErrorsFound := c.Name == "C3", DoCTFErrorReport := c.Name == "C3" }
    reportTransferFunction := fun c n => [" Construction CTF," ++ c.Name ++ "," ++ toString n ++ "\n"]
    ScanForReports := fun _ _ => false }

/-- Five constructions `C1` .. `C5`, all in use. -/
def sampleFive : List ConstructionProps :=
  [⟨"C1", true⟩, ⟨"C2", true⟩, ⟨"C3", true⟩, ⟨"C4", true⟩, ⟨"C5", true⟩]

/-- Text of a schema header line: discriminator tag, then the column labels. -/
def schemaHeader (tag : String) (columns : List String) : String :=
  "! <" ++ tag ++ ">," ++ String.intercalate "," columns ++ "\n"

/-- The used constructions among `Construct`, numbered from `n + 1`. -/
def usedFrom (n : Nat) (Construct : List ConstructionProps) : List (ConstructionProps × Int) :=
  ((Construct.enumFrom n).filter (fun p => p.2.IsUsedCTF)).map (fun p => (p.2, (p.1 : Int) + 1))

/-- The four schema header lines, in the order they are printed. -/
def schemaHeaders : List String :=
  [headerConstructionCTF, headerMaterialCTFSummary, headerMaterialAir, headerCTF]

/-- Events `ReportCTFs` adds after the record of its own call. -/
def reportWrites (deps : Collaborators) (Construct : List ConstructionProps) (d : Bool) :
    List Event :=
  if (deps.ScanForReports "Constructions" "Constructions" || d) = true then
    schemaHeaders.map Event.print ++
      (usedWithPosition Construct).map (fun p => Event.reportTransferFunction p.1 p.2)
  else []

/-- Text `ReportCTFs` appends to the report file. -/
def reportText (deps : Collaborators) (Construct : List ConstructionProps) (d : Bool) :
    List String :=
  if (deps.ScanForReports "Constructions" "Constructions" || d) = true then
    schemaHeaders ++
      (usedWithPosition Construct).flatMap (fun p => deps.reportTransferFunction p.1 p.2)
  else []

/-- The message of the fatal error raised by the driver. -/
def fatalMessage : String :=
  "Program terminated for reasons listed (InitConductionTransferFunctions)"

/-- Value of the error flag after the solve loop. -/
def errorAfterSolves (deps : Collaborators) (st : State) : Bool :=
  st.ErrorsFound || st.Construct.any (fun c => (deps.calculateTransferFunction c).ErrorsFound)

/-- Value of the detailed-report flag after the solve loop. -/
def reportAfterSolves (deps : Collaborators) (st : State) : Bool :=
  st.Construct.any (fun c => (deps.calculateTransferFunction c).DoCTFErrorReport)

/-- The collection after the solve loop. -/
def solved (deps : Collaborators) (st : State) : List ConstructionProps :=
  st.Construct.map (fun c => (deps.calculateTransferFunction c).construction)

/-- Three constructions in input order: `A` (used), `B` (unused), `C` (used). -/
def sampleABC : List ConstructionProps :=
  [⟨"A", true⟩, ⟨"B", false⟩, ⟨"C", true⟩]

/-- Characters of the report file, in the order they were written. -/
def fileContent (eio : List String) : List Char :=
  eio.flatMap String.data

end ConductionTransferFunctionCalc

/-! ## Definitions: building-surface ground temperatures -/

namespace GroundTemperatureModeling

/-- Diagnostics written through `UtilityRoutines`. -/
inductive Message where
  | ShowSevereError (text : String)
  | ShowWarningError (text : String)
  | ShowContinueError (text : String)
  deriving DecidableEq, Repr

/-- Element `i` of an `Array1D<Real64>` with lower bound 1, or `none` when `i` is
outside `1 .. size`. -/
def Array1D.get? (a : List ℚ) (i : Int) : Option ℚ :=
  if 1 ≤ i then a[(i - 1).toNat]? else none

/-- Assignment to element `i` of an `Array1D<Real64>` with lower bound 1. -/
def Array1D.set (a : List ℚ) (i : Nat) (value : ℚ) : List ℚ :=
  a.set (i - 1) value

/-- Members of `SiteBuildingSurfaceGroundTemps` (with those of its base class)
that the functions of the file use. -/
structure SiteBuildingSurfaceGroundTemps where
  objectType : Int
  objectName : String
  errorsFound : Bool
  timeOfSimInMonths : Int
  buildingSurfaceGroundTemps : List ℚ
  deriving DecidableEq, Repr

/-- What `inputProcessor->getObjectItem` stores for the numeric fields: the
array `rNumericArgs` (1-based) and the count `NumNums`. -/
structure ObjectItem where
  rNumericArgs : Nat → ℚ
  NumNums : Int

/-- The input processor, as far as the factory uses it. -/
structure InputProcessor where
  getNumObjectsFound : String → Int
  getObjectItem : String → Int → ObjectItem

/-- Module-level data the factory touches: `groundTempModels`,
`DataEnvironment::GroundTempObjInput`, the diagnostics shown, and the calls of
`write_ground_temps` (name and temperatures). -/
structure Globals where
  groundTempModels : List SiteBuildingSurfaceGroundTemps
  GroundTempObjInput : Bool
  messages : List Message
  eio : List (String × List ℚ)

/-- The `for (int i = 1; i <= 12; ++i)` loop of the factory over the remaining
indices: assigns element `i` and raises `genErrorMessage` when the element just
assigned lies outside 15 .. 25. -/
def BuildingSurfaceGTMFactory.loop (rNumericArgs : Nat → ℚ) :
    List Nat → List ℚ × Bool → List ℚ × Bool
  | [], v => v
  | i :: rest, (temps, genErrorMessage) =>
    let temps := Array1D.set temps i (rNumericArgs i)
    let genErrorMessage :=
      match Array1D.get? temps i with
      | some t => if t < 15 ∨ t > 25 then true else genErrorMessage
      | none => genErrorMessage
    BuildingSurfaceGTMFactory.loop rNumericArgs rest (temps, genErrorMessage)

/-- Function `SiteBuildingSurfaceGroundTemps::BuildingSurfaceGTMFactory`.  `thisModel` is
the object the default constructor has just built (the class declaration is not
among the sources), `cCurrentModuleObject` the entry of `CurrentModuleObjects`
for this model.  Returns the pointer (`none` for `nullptr`) and the module data. -/
def BuildingSurfaceGTMFactory (inputProcessor : InputProcessor) (cCurrentModuleObject : String)
    (thisModel : SiteBuildingSurfaceGroundTemps) (g : Globals)
    (objectType : Int) (objectName : String) :
    Option SiteBuildingSurfaceGroundTemps × Globals :=
  let genErrorMessage := false
  let numCurrObjects := inputProcessor.getNumObjectsFound cCurrentModuleObject
  let thisModel := { thisModel with objectType := objectType, objectName := objectName }
  let (thisModel, g) :=
    if numCurrObjects = 1 then
      let item := inputProcessor.getObjectItem cCurrentModuleObject 1
      let (thisModel, g) :=
        if item.NumNums < 12 then
          ({ thisModel with errorsFound := true },
            { g with messages := g.messages ++
                [Message.ShowSevereError (cCurrentModuleObject ++ ": Less than 12 values entered.")] })
        else (thisModel, g)
      let (temps, genErrorMessage) :=
        BuildingSurfaceGTMFactory.loop item.rNumericArgs (List.range' 1 12)
          (thisModel.buildingSurfaceGroundTemps, genErrorMessage)
      let thisModel := { thisModel with buildingSurfaceGroundTemps := temps }
      let g := { g with GroundTempObjInput := true }
      if genErrorMessage then
        (thisModel, { g with messages := g.messages ++
          [Message.ShowWarningError
              (cCurrentModuleObject ++ ": Some values fall outside the range of 15-25C."),
            Message.ShowContinueError
              "These values may be inappropriate.  Please consult the Input Output Reference for more details."] })
      else (thisModel, g)
    else if numCurrObjects > 1 then
      ({ thisModel with errorsFound := true },
        { g with messages := g.messages ++
            [Message.ShowSevereError
              (cCurrentModuleObject ++ ": Too many objects entered. Only one allowed.")] })
    else
      ({ thisModel with
          buildingSurfaceGroundTemps := thisModel.buildingSurfaceGroundTemps.map (fun _ => 18) }, g)
  let g := { g with eio := g.eio ++ [("BuildingSurface", thisModel.buildingSurfaceGroundTemps)] }
  if !thisModel.errorsFound then
    (some thisModel, { g with groundTempModels := g.groundTempModels ++ [thisModel] })
  else
    (none, { g with messages := g.messages ++
      [Message.ShowContinueError
        "Site:GroundTemperature:BuildingSurface--Errors getting input for ground temperature model"] })

/-- Function `SiteBuildingSurfaceGroundTemps::getGroundTemp`: element `timeOfSimInMonths`
of the array, `none` when that index is outside the array. -/
def getGroundTemp (thisModel : SiteBuildingSurfaceGroundTemps) : Option ℚ :=
  Array1D.get? thisModel.buildingSurfaceGroundTemps thisModel.timeOfSimInMonths

/-- The C library function `remainder(x, y)` on integer-valued arguments with
`y ≠ 0`: `x - n * y`, where `n` is the integer nearest to the exact quotient
`x / y`, the even one of the two when the quotient lies halfway between them. -/
def remainder (x y : Int) : Int :=
  let r := x % y
  if 2 * r < |y| then r
  else if 2 * r > |y| then r - |y|
  else if (x / y) % 2 = 0 then r
  else r - |y|

/-- Function `SiteBuildingSurfaceGroundTemps::getGroundTempAtTimeInMonths`: the model with
the month stored, and the value returned. -/
def getGroundTempAtTimeInMonths (thisModel : SiteBuildingSurfaceGroundTemps) (_month : Int) :
    SiteBuildingSurfaceGroundTemps × Option ℚ :=
  let thisModel :=
    if _month ≥ 1 ∧ _month ≤ 12 then { thisModel with timeOfSimInMonths := _month }
    else { thisModel with timeOfSimInMonths := remainder _month 12 }
  (thisModel, getGroundTemp thisModel)

/-- Function `SiteBuildingSurfaceGroundTemps::getGroundTempAtTimeInSeconds`.
`NumDaysInYear` is `state.dataWeatherManager.NumDaysInYear` and `SecsInDay` is
`DataGlobals::SecsInDay`. -/
def getGroundTempAtTimeInSeconds (NumDaysInYear : Int) (SecsInDay : ℚ)
    (thisModel : SiteBuildingSurfaceGroundTemps) (_seconds : ℚ) :
    SiteBuildingSurfaceGroundTemps × Option ℚ :=
  let secPerMonth : ℚ := NumDaysInYear * SecsInDay / 12
  let month : Int := Rat.ceil (_seconds / secPerMonth)
  let thisModel :=
    if month ≥ 1 ∧ month ≤ 12 then { thisModel with timeOfSimInMonths := month }
    else { thisModel with timeOfSimInMonths := remainder month 12 }
  (thisModel, getGroundTemp thisModel)

/-- A model holding twelve monthly temperatures. -/
def sampleModel : SiteBuildingSurfaceGroundTemps :=
  { objectType := 0, objectName := "", errorsFound := false, timeOfSimInMonths := 0
    buildingSurfaceGroundTemps := [18, 18, 19, 20, 21, 22, 23, 23, 22, 21, 20, 19] }

/-- A newly constructed model: no error recorded, twelve array entries. -/
def sampleNewModel : SiteBuildingSurfaceGroundTemps :=
  { objectType := 0, objectName := "", errorsFound := false, timeOfSimInMonths := 0
    buildingSurfaceGroundTemps := List.replicate 12 13 }

/-- Input with exactly one object that gives twelve values, the first below 15
and the second above 25. -/
def sampleInput : InputProcessor :=
  { getNumObjectsFound := fun _ => 1
    getObjectItem := fun _ _ =>
      { rNumericArgs := fun i => if i = 1 then 10 else if i = 2 then 30 else 18
        NumNums := 12 } }

/-- Module data before any ground temperature model exists. -/
def sampleGlobals : Globals :=
  { groundTempModels := [], GroundTempObjInput := false, messages := [], eio := [] }

end GroundTemperatureModeling

/-! ## Theorems: conduction transfer function driver -/

namespace ConductionTransferFunctionCalc

theorem usedFrom_nil (n : Nat) : usedFrom n [] = [] := rfl

theorem usedFrom_cons (n : Nat) (c : ConstructionProps) (cs : List ConstructionProps) :
    usedFrom n (c :: cs) =
      if c.IsUsedCTF then (c, (n : Int) + 1) :: usedFrom (n + 1) cs else usedFrom (n + 1) cs := by
  unfold usedFrom
  cases h : c.IsUsedCTF <;> simp [List.enumFrom, List.filter, h]

theorem usedWithPosition_eq (cs : List ConstructionProps) : usedWithPosition cs = usedFrom 0 cs := rfl

theorem calculateTransferFunctionCalls_append (a b : List Event) :
    calculateTransferFunctionCalls (a ++ b) =
      calculateTransferFunctionCalls a ++ calculateTransferFunctionCalls b := by
  induction a with
  | nil => rfl
  | cons e a ih => cases e <;> simp [calculateTransferFunctionCalls, ih]

theorem reportTransferFunctionCalls_append (a b : List Event) :
    reportTransferFunctionCalls (a ++ b) =
      reportTransferFunctionCalls a ++ reportTransferFunctionCalls b := by
  induction a with
  | nil => rfl
  | cons e a ih => cases e <;> simp [reportTransferFunctionCalls, ih]

theorem ReportCTFsCalls_append (a b : List Event) :
    ReportCTFsCalls (a ++ b) = ReportCTFsCalls a ++ ReportCTFsCalls b := by
  induction a with
  | nil => rfl
  | cons e a ih => cases e <;> simp [ReportCTFsCalls, ih]

theorem calls_map_calculate (cs : List ConstructionProps) :
    calculateTransferFunctionCalls (cs.map Event.calculateTransferFunction) = cs := by
  induction cs with
  | nil => rfl
  | cons c cs ih => simp [calculateTransferFunctionCalls, ih]

theorem ReportCTFsCalls_map_calculate (cs : List ConstructionProps) :
    ReportCTFsCalls (cs.map Event.calculateTransferFunction) = [] := by
  induction cs with
  | nil => rfl
  | cons c cs ih => simp [ReportCTFsCalls, ih]

theorem calls_map_report (ps : List (ConstructionProps × Int)) :
    calculateTransferFunctionCalls (ps.map (fun p => Event.reportTransferFunction p.1 p.2)) = [] := by
  induction ps with
  | nil => rfl
  | cons p ps ih => simp [calculateTransferFunctionCalls, ih]

theorem reportCalls_map_report (ps : List (ConstructionProps × Int)) :
    reportTransferFunctionCalls (ps.map (fun p => Event.reportTransferFunction p.1 p.2)) = ps := by
  induction ps with
  | nil => rfl
  | cons p ps ih => simp [reportTransferFunctionCalls, ih]

theorem ReportCTFsCalls_map_report (ps : List (ConstructionProps × Int)) :
    ReportCTFsCalls (ps.map (fun p => Event.reportTransferFunction p.1 p.2)) = [] := by
  induction ps with
  | nil => rfl
  | cons p ps ih => simp [ReportCTFsCalls, ih]

/-- What the report loop does, in closed form. -/
theorem ReportCTFs_loop_closed_form (deps : Collaborators) (cs : List ConstructionProps) (n : Nat)
    (st : State) :
    ReportCTFs.loop deps cs (n : Int) st =
      { st with
        eio := st.eio ++ (usedFrom n cs).flatMap (fun p => deps.reportTransferFunction p.1 p.2)
        trace := st.trace ++ (usedFrom n cs).map (fun p => Event.reportTransferFunction p.1 p.2) } := by
  induction cs generalizing n st with
  | nil => simp [ReportCTFs.loop, usedFrom_nil]
  | cons c cs ih =>
    have hn : ((n : Int) + 1) = ((n + 1 : Nat) : Int) := by push_cast; rfl
    cases h : c.IsUsedCTF
    · simp only [ReportCTFs.loop, h, usedFrom_cons, Bool.not_true, Bool.not_false,
        Bool.false_eq_true, if_true, if_false]
      rw [hn, ih]
    · simp only [ReportCTFs.loop, h, usedFrom_cons, Bool.not_true, Bool.not_false,
        Bool.false_eq_true, if_true, if_false]
      rw [hn, ih]
      simp [List.append_assoc]

/-- What `ReportCTFs` does, in closed form. -/
theorem ReportCTFs_eq (deps : Collaborators) (st : State) (d : Bool) :
    ReportCTFs deps st d =
      { st with
        eio := st.eio ++ reportText deps st.Construct d
        trace := st.trace ++ [Event.ReportCTFs d] ++ reportWrites deps st.Construct d } := by
  unfold ReportCTFs reportText reportWrites
  by_cases h : (deps.ScanForReports "Constructions" "Constructions" || d) = true
  · simp only [h, if_true]
    have := ReportCTFs_loop_closed_form deps st.Construct 0
    simp only [Nat.cast_zero] at this
    simp only [print]
    rw [this]
    simp [usedWithPosition_eq, schemaHeaders, List.append_assoc]
  · simp only [h]
    simp

theorem reportWrites_all_isReportWrite (deps : Collaborators) (cs : List ConstructionProps)
    (d : Bool) : (reportWrites deps cs d).all Event.isReportWrite = true := by
  unfold reportWrites
  split
  · simp only [schemaHeaders, List.all_append, List.all_map, List.map, List.all_cons,
      List.all_nil, Event.isReportWrite, Bool.and_true, Bool.true_and]
    rw [List.all_eq_true]
    intro e he
    obtain ⟨p, _, rfl⟩ := List.mem_map.mp he
    rfl
  · rfl

theorem calls_reportWrites (deps : Collaborators) (cs : List ConstructionProps) (d : Bool) :
    calculateTransferFunctionCalls (reportWrites deps cs d) = [] := by
  unfold reportWrites
  split
  · simp [schemaHeaders, calculateTransferFunctionCalls_append, calls_map_report,
      calculateTransferFunctionCalls]
  · rfl

theorem ReportCTFsCalls_reportWrites (deps : Collaborators) (cs : List ConstructionProps)
    (d : Bool) : ReportCTFsCalls (reportWrites deps cs d) = [] := by
  unfold reportWrites
  split
  · simp [schemaHeaders, ReportCTFsCalls_append, ReportCTFsCalls_map_report, ReportCTFsCalls]
  · rfl

theorem reportCalls_reportWrites (deps : Collaborators) (cs : List ConstructionProps) (d : Bool) :
    reportTransferFunctionCalls (reportWrites deps cs d) =
      if (deps.ScanForReports "Constructions" "Constructions" || d) = true then
        usedWithPosition cs
      else [] := by
  unfold reportWrites
  split
  · simp [schemaHeaders, reportTransferFunctionCalls_append, reportCalls_map_report,
      reportTransferFunctionCalls]
  · rfl

/-- What the solve loop does, in closed form. -/
theorem InitConductionTransferFunctions_loop_closed_form (deps : Collaborators)
    (cs : List ConstructionProps) (v : SolveLoop) :
    InitConductionTransferFunctions.loop deps cs v =
      { Construct := v.Construct ++ cs.map (fun c => (deps.calculateTransferFunction c).construction)
        ErrorsFound := v.ErrorsFound || cs.any (fun c => (deps.calculateTransferFunction c).ErrorsFound)
        DoCTFErrorReport :=
          v.DoCTFErrorReport || cs.any (fun c => (deps.calculateTransferFunction c).DoCTFErrorReport)
        trace := v.trace ++ cs.map Event.calculateTransferFunction } := by
  induction cs generalizing v with
  | nil => simp [InitConductionTransferFunctions.loop]
  | cons c cs ih =>
    simp only [InitConductionTransferFunctions.loop]
    rw [ih]
    simp [List.append_assoc, Bool.or_assoc]

/-- What the driver does, in closed form. -/
theorem InitConductionTransferFunctions_eq (deps : Collaborators) (st : State) :
    InitConductionTransferFunctions deps st =
      { state :=
          { ErrorsFound := errorAfterSolves deps st
            Construct := solved deps st
            eio := st.eio ++ reportText deps (solved deps st) (reportAfterSolves deps st)
            trace := st.trace ++ st.Construct.map Event.calculateTransferFunction ++
              [Event.ReportCTFs (reportAfterSolves deps st)] ++
              reportWrites deps (solved deps st) (reportAfterSolves deps st) ++
              (if errorAfterSolves deps st = true then [Event.ShowFatalError fatalMessage] else []) }
        fatal := if errorAfterSolves deps st = true then some fatalMessage else none } := by
  unfold InitConductionTransferFunctions
  simp only [InitConductionTransferFunctions_loop_closed_form, ReportCTFs_eq, List.nil_append,
    Bool.false_or]
  by_cases h : errorAfterSolves deps st = true
  · have h2 := h
    unfold errorAfterSolves at h2
    simp only [h, h2, if_true, ShowFatalError]
    rfl
  · have h2 := h
    unfold errorAfterSolves at h2
    simp only [h, h2, if_false]
    simp [errorAfterSolves, solved, reportAfterSolves]

/-- C1: for every collection, every behaviour of the solves and every value of
the flags on entry, the driver invokes `calculateTransferFunction` exactly once
on every construction, in collection order: the calls it adds to the trace are
the collection itself.  Nothing in the loop looks at the error flag, so a failed
solve does not stop the later ones. -/
theorem InitConductionTransferFunctions_attempts_every_construction
    (deps : Collaborators) (st : State) :
    calculateTransferFunctionCalls (InitConductionTransferFunctions deps st).state.trace =
      calculateTransferFunctionCalls st.trace ++ st.Construct := by
  rw [InitConductionTransferFunctions_eq]
  simp only [calculateTransferFunctionCalls_append, calls_map_calculate, calls_reportWrites]
  split <;> simp [calculateTransferFunctionCalls]

/-- C2: if at least one solve of the invocation sets the error flag, the
invocation ends in the fatal error that names the stage, and raising it is the
last thing the invocation does. -/
theorem InitConductionTransferFunctions_fatal_when_a_solve_fails
    (deps : Collaborators) (st : State)
    (h : ∃ c ∈ st.Construct, (deps.calculateTransferFunction c).ErrorsFound = true) :
    (InitConductionTransferFunctions deps st).fatal =
        some "Program terminated for reasons listed (InitConductionTransferFunctions)" ∧
      (InitConductionTransferFunctions deps st).state.trace.getLast? =
        some (Event.ShowFatalError
          "Program terminated for reasons listed (InitConductionTransferFunctions)") := by
  have hany : errorAfterSolves deps st = true := by
    unfold errorAfterSolves
    rw [Bool.or_eq_true, List.any_eq_true]
    exact Or.inr h
  rw [InitConductionTransferFunctions_eq]
  rw [if_pos hany, if_pos hany]
  exact ⟨rfl, List.getLast?_concat _⟩

/-- Witness for C2: five constructions of which the third fails. -/
theorem InitConductionTransferFunctions_fatal_when_a_solve_fails_witness :
    (∃ c ∈ (State.fresh sampleFive).Construct,
        (sampleDeps.calculateTransferFunction c).ErrorsFound = true) ∧
      ((InitConductionTransferFunctions sampleDeps (State.fresh sampleFive)).fatal =
          some "Program terminated for reasons listed (InitConductionTransferFunctions)" ∧
        (InitConductionTransferFunctions sampleDeps (State.fresh sampleFive)).state.trace.getLast? =
          some (Event.ShowFatalError
            "Program terminated for reasons listed (InitConductionTransferFunctions)")) :=
  ⟨⟨⟨"C3", true⟩, by decide, by decide⟩,
    InitConductionTransferFunctions_fatal_when_a_solve_fails sampleDeps (State.fresh sampleFive)
      ⟨⟨"C3", true⟩, by decide, by decide⟩⟩

/-- C3: every run of the driver adds to the trace, in this order: one solve per
construction, then exactly one call of `ReportCTFs`, then only writes to the
report file, then the fatal error if there is one and nothing otherwise.  So the
report is complete before the fatal error is raised. -/
theorem InitConductionTransferFunctions_reports_once_before_fatal
    (deps : Collaborators) (st : State) :
    ∃ d writes tail,
      (InitConductionTransferFunctions deps st).state.trace =
          st.trace ++ st.Construct.map Event.calculateTransferFunction ++
            [Event.ReportCTFs d] ++ writes ++ tail ∧
        writes.all Event.isReportWrite = true ∧
        tail = (match (InitConductionTransferFunctions deps st).fatal with
          | some message => [Event.ShowFatalError message]
          | none => []) ∧
        ReportCTFsCalls (InitConductionTransferFunctions deps st).state.trace =
          ReportCTFsCalls st.trace ++ [d] := by
  refine ⟨reportAfterSolves deps st,
    reportWrites deps (solved deps st) (reportAfterSolves deps st),
    if errorAfterSolves deps st = true then [Event.ShowFatalError fatalMessage] else [],
    ?_, reportWrites_all_isReportWrite _ _ _, ?_, ?_⟩
  · rw [InitConductionTransferFunctions_eq]
  · rw [InitConductionTransferFunctions_eq]
    split <;> rfl
  · rw [InitConductionTransferFunctions_eq]
    simp only [ReportCTFsCalls_append, ReportCTFsCalls_map_calculate,
      ReportCTFsCalls_reportWrites]
    split <;> simp [ReportCTFsCalls]

/-- C4: when `ReportCTFs` emits, the `reportTransferFunction` calls it makes are
exactly the constructions with `IsUsedCTF` set, in collection order, each with
its 1-based position in the whole collection; an unused construction gets no
call and still takes up a position. -/
theorem ReportCTFs_reports_used_constructions_by_position
    (deps : Collaborators) (st : State) (d : Bool)
    (h : deps.ScanForReports "Constructions" "Constructions" = true ∨ d = true) :
    reportTransferFunctionCalls (ReportCTFs deps st d).trace =
      reportTransferFunctionCalls st.trace ++
        (st.Construct.enum.filter (fun p => p.2.IsUsedCTF)).map (fun p => (p.2, (p.1 : Int) + 1)) := by
  have h2 : (deps.ScanForReports "Constructions" "Constructions" || d) = true := by
    rw [Bool.or_eq_true]
    exact h
  rw [ReportCTFs_eq]
  simp only [reportTransferFunctionCalls_append, reportCalls_reportWrites, h2, if_true]
  simp [reportTransferFunctionCalls, usedWithPosition]

/-- Witness for C4: for `[A(used), B(unused), C(used)]` the calls are `A` with
index 1 and `C` with index 3. -/
theorem ReportCTFs_reports_used_constructions_by_position_witness :
    (sampleDeps.ScanForReports "Constructions" "Constructions" = true ∨ true = true) ∧
      reportTransferFunctionCalls (ReportCTFs sampleDeps (State.fresh sampleABC) true).trace =
        [(⟨"A", true⟩, 1), (⟨"C", true⟩, 3)] :=
  ⟨Or.inr rfl,
    (ReportCTFs_reports_used_constructions_by_position sampleDeps (State.fresh sampleABC) true
      (Or.inr rfl)).trans (by decide)⟩

/-- The first schema header line is not the empty string. -/
theorem headerConstructionCTF_data_ne_nil : headerConstructionCTF.data ≠ [] := by
  intro h
  have hlen : headerConstructionCTF.data.isEmpty = false := rfl
  rw [h] at hlen
  exact Bool.noConfusion hlen

/-- C5: `ReportCTFs` only appends characters to the report file, and it appends
at least one character if and only if the `Constructions` report setting is on
or `DoReportBecauseError` is true.  When both are false the file is left as it
was and `reportTransferFunction` is called on no construction. -/
theorem ReportCTFs_writes_iff_requested_or_error
    (deps : Collaborators) (st : State) (d : Bool) :
    (∃ written : List Char,
        fileContent (ReportCTFs deps st d).eio = fileContent st.eio ++ written ∧
        (written ≠ [] ↔ (deps.ScanForReports "Constructions" "Constructions" = true ∨ d = true))) ∧
      (deps.ScanForReports "Constructions" "Constructions" = false → d = false →
        (ReportCTFs deps st d).eio = st.eio ∧
          reportTransferFunctionCalls (ReportCTFs deps st d).trace =
            reportTransferFunctionCalls st.trace) := by
  refine ⟨⟨fileContent (reportText deps st.Construct d), ?_, ?_⟩, ?_⟩
  · rw [ReportCTFs_eq]
    simp [fileContent]
  · unfold reportText
    by_cases h : (deps.ScanForReports "Constructions" "Constructions" || d) = true
    · simp only [h, if_true]
      rw [Bool.or_eq_true] at h
      have hne : fileContent (schemaHeaders ++
          (usedWithPosition st.Construct).flatMap
            (fun p => deps.reportTransferFunction p.1 p.2)) ≠ [] := by
        intro hnil
        have hsplit : fileContent (schemaHeaders ++
            (usedWithPosition st.Construct).flatMap
              (fun p => deps.reportTransferFunction p.1 p.2)) =
            headerConstructionCTF.data ++
              fileContent ([headerMaterialCTFSummary, headerMaterialAir, headerCTF] ++
                (usedWithPosition st.Construct).flatMap
                  (fun p => deps.reportTransferFunction p.1 p.2)) := rfl
        rw [hsplit, List.append_eq_nil] at hnil
        exact headerConstructionCTF_data_ne_nil hnil.1
      exact ⟨fun _ => h, fun _ => hne⟩
    · simp only [h, if_false]
      rw [Bool.or_eq_true] at h
      simp [fileContent, h]
  · intro hs hd
    rw [ReportCTFs_eq]
    simp [reportText, reportTransferFunctionCalls_append, reportCalls_reportWrites, hs, hd,
      reportTransferFunctionCalls]

/-- Witness for C5: report setting off and no error, on three constructions. -/
theorem ReportCTFs_writes_iff_requested_or_error_witness :
    sampleDeps.ScanForReports "Constructions" "Constructions" = false ∧ false = false ∧
      (ReportCTFs sampleDeps (State.fresh sampleABC) false).eio = (State.fresh sampleABC).eio ∧
      reportTransferFunctionCalls (ReportCTFs sampleDeps (State.fresh sampleABC) false).trace =
        reportTransferFunctionCalls (State.fresh sampleABC).trace :=
  ⟨rfl, rfl,
    (ReportCTFs_writes_iff_requested_or_error sampleDeps (State.fresh sampleABC) false).2 rfl rfl⟩

/-- C6: the argument `DoReportBecauseError` of the one `ReportCTFs` call is true
when some solve of the invocation sets the detailed-report flag, and then the
schema headers are appended to the report file whatever the user setting is;
it is false when no solve sets the flag. -/
theorem InitConductionTransferFunctions_reports_because_of_error
    (deps : Collaborators) (st : State) :
    ((∃ c ∈ st.Construct, (deps.calculateTransferFunction c).DoCTFErrorReport = true) →
        ReportCTFsCalls (InitConductionTransferFunctions deps st).state.trace =
            ReportCTFsCalls st.trace ++ [true] ∧
          ∃ rows, (InitConductionTransferFunctions deps st).state.eio =
            st.eio ++ [headerConstructionCTF, headerMaterialCTFSummary, headerMaterialAir,
              headerCTF] ++ rows) ∧
      ((∀ c ∈ st.Construct, (deps.calculateTransferFunction c).DoCTFErrorReport = false) →
        ReportCTFsCalls (InitConductionTransferFunctions deps st).state.trace =
          ReportCTFsCalls st.trace ++ [false]) := by
  have hcalls : ReportCTFsCalls (InitConductionTransferFunctions deps st).state.trace =
      ReportCTFsCalls st.trace ++ [reportAfterSolves deps st] := by
    rw [InitConductionTransferFunctions_eq]
    simp only [ReportCTFsCalls_append, ReportCTFsCalls_map_calculate,
      ReportCTFsCalls_reportWrites]
    split <;> simp [ReportCTFsCalls]
  constructor
  · intro h
    have hd : reportAfterSolves deps st = true := by
      unfold reportAfterSolves
      rw [List.any_eq_true]
      exact h
    refine ⟨by rw [hcalls, hd], ?_⟩
    refine ⟨(usedWithPosition (solved deps st)).flatMap
      (fun p => deps.reportTransferFunction p.1 p.2), ?_⟩
    rw [InitConductionTransferFunctions_eq]
    simp [reportText, hd, schemaHeaders]
  · intro h
    have hd : reportAfterSolves deps st = false := by
      unfold reportAfterSolves
      rw [List.any_eq_false]
      intro c hc
      simp [h c hc]
    rw [hcalls, hd]

/-- Witness for C6: with the user setting off, a run over five constructions of
which the third fails emits the report, and a run over three constructions that
all solve passes `false`. -/
theorem InitConductionTransferFunctions_reports_because_of_error_witness :
    ((∃ c ∈ (State.fresh sampleFive).Construct,
          (sampleDeps.calculateTransferFunction c).DoCTFErrorReport = true) ∧
        ReportCTFsCalls
            (InitConductionTransferFunctions sampleDeps (State.fresh sampleFive)).state.trace =
          ReportCTFsCalls (State.fresh sampleFive).trace ++ [true] ∧
        ∃ rows, (InitConductionTransferFunctions sampleDeps (State.fresh sampleFive)).state.eio =
          (State.fresh sampleFive).eio ++ [headerConstructionCTF, headerMaterialCTFSummary,
            headerMaterialAir, headerCTF] ++ rows) ∧
      ((∀ c ∈ (State.fresh sampleABC).Construct,
          (sampleDeps.calculateTransferFunction c).DoCTFErrorReport = false) ∧
        ReportCTFsCalls
            (InitConductionTransferFunctions sampleDeps (State.fresh sampleABC)).state.trace =
          ReportCTFsCalls (State.fresh sampleABC).trace ++ [false]) :=
  ⟨⟨⟨⟨"C3", true⟩, by decide, by decide⟩,
      (InitConductionTransferFunctions_reports_because_of_error sampleDeps
        (State.fresh sampleFive)).1 ⟨⟨"C3", true⟩, by decide, by decide⟩⟩,
    ⟨by decide,
      (InitConductionTransferFunctions_reports_because_of_error sampleDeps
        (State.fresh sampleABC)).2 (by decide)⟩⟩

/-- C7: whenever `ReportCTFs` emits, what it appends to the report file starts
with four schema header lines, tagged `Construction CTF`, `Material CTF Summary`,
`Material:Air` and `CTF` in this order and with the columns listed below; the
per-construction rows come after them.  The header text is the same for every
collection. -/
theorem ReportCTFs_writes_schema_headers_first
    (deps : Collaborators) (st : State) (d : Bool)
    (h : deps.ScanForReports "Constructions" "Constructions" = true ∨ d = true) :
    (ReportCTFs deps st d).eio =
      st.eio ++
        [schemaHeader "Construction CTF"
            ["Construction Name", "Index", "#Layers", "#CTFs", "Time Step \x7bhours\x7d",
              "ThermalConductance \x7bw/m2-K\x7d", "OuterThermalAbsorptance",
              "InnerThermalAbsorptance", "OuterSolarAbsorptance", "InnerSolarAbsorptance",
              "Roughness"],
          schemaHeader "Material CTF Summary"
            ["Material Name", "Thickness \x7bm\x7d", "Conductivity \x7bw/m-K\x7d",
              "Density \x7bkg/m3\x7d", "Specific Heat \x7bJ/kg-K\x7d",
              "ThermalResistance \x7bm2-K/w\x7d"],
          schemaHeader "Material:Air" ["Material Name", "ThermalResistance \x7bm2-K/w\x7d"],
          schemaHeader "CTF" ["Time", "Outside", "Cross", "Inside", "Flux (except final one)"]] ++
        (usedWithPosition st.Construct).flatMap (fun p => deps.reportTransferFunction p.1 p.2) := by
  have h2 : (deps.ScanForReports "Constructions" "Constructions" || d) = true := by
    rw [Bool.or_eq_true]
    exact h
  have hh : schemaHeaders =
      [schemaHeader "Construction CTF"
            ["Construction Name", "Index", "#Layers", "#CTFs", "Time Step \x7bhours\x7d",
              "ThermalConductance \x7bw/m2-K\x7d", "OuterThermalAbsorptance",
              "InnerThermalAbsorptance", "OuterSolarAbsorptance", "InnerSolarAbsorptance",
              "Roughness"],
          schemaHeader "Material CTF Summary"
            ["Material Name", "Thickness \x7bm\x7d", "Conductivity \x7bw/m-K\x7d",
              "Density \x7bkg/m3\x7d", "Specific Heat \x7bJ/kg-K\x7d",
              "ThermalResistance \x7bm2-K/w\x7d"],
          schemaHeader "Material:Air" ["Material Name", "ThermalResistance \x7bm2-K/w\x7d"],
          schemaHeader "CTF" ["Time", "Outside", "Cross", "Inside", "Flux (except final one)"]] := by
    rfl
  rw [ReportCTFs_eq, ← hh]
  simp [reportText, h2]

/-- Witness for C7: the report forced by an error, on three constructions. -/
theorem ReportCTFs_writes_schema_headers_first_witness :
    (sampleDeps.ScanForReports "Constructions" "Constructions" = true ∨ true = true) ∧
      (ReportCTFs sampleDeps (State.fresh sampleABC) true).eio =
        (State.fresh sampleABC).eio ++
          [schemaHeader "Construction CTF"
              ["Construction Name", "Index", "#Layers", "#CTFs", "Time Step \x7bhours\x7d",
                "ThermalConductance \x7bw/m2-K\x7d", "OuterThermalAbsorptance",
                "InnerThermalAbsorptance", "OuterSolarAbsorptance", "InnerSolarAbsorptance",
                "Roughness"],
            schemaHeader "Material CTF Summary"
              ["Material Name", "Thickness \x7bm\x7d", "Conductivity \x7bw/m-K\x7d",
                "Density \x7bkg/m3\x7d", "Specific Heat \x7bJ/kg-K\x7d",
                "ThermalResistance \x7bm2-K/w\x7d"],
            schemaHeader "Material:Air" ["Material Name", "ThermalResistance \x7bm2-K/w\x7d"],
            schemaHeader "CTF" ["Time", "Outside", "Cross", "Inside", "Flux (except final one)"]] ++
          (usedWithPosition (State.fresh sampleABC).Construct).flatMap
            (fun p => sampleDeps.reportTransferFunction p.1 p.2) :=
  ⟨Or.inr rfl,
    ReportCTFs_writes_schema_headers_first sampleDeps (State.fresh sampleABC) true (Or.inr rfl)⟩

end ConductionTransferFunctionCalc

/-! ## Theorems: building-surface ground temperatures -/

namespace GroundTemperatureModeling

/-- Range and congruence of `remainder` with divisor 12. -/
theorem remainder_twelve (x : Int) :
    -6 ≤ remainder x 12 ∧ remainder x 12 ≤ 6 ∧ (x - remainder x 12) % 12 = 0 := by
  have h12 : |(12 : Int)| = 12 := by decide
  unfold remainder
  simp only [h12]
  split
  · omega
  · split
    · omega
    · split <;> omega

/-- C9 fails on the code: the month accessor stores 0 for month 24 and -5 for
month 19, the seconds accessor stores 0 for time 0, and in each case
`getGroundTemp` indexes the twelve-entry array outside `1 .. 12`. -/
theorem getGroundTempAtTime_stores_index_outside_one_to_twelve :
    (getGroundTempAtTimeInMonths sampleModel 24).1.timeOfSimInMonths = 0 ∧
      (getGroundTempAtTimeInMonths sampleModel 24).2 = none ∧
      (getGroundTempAtTimeInMonths sampleModel 19).1.timeOfSimInMonths = -5 ∧
      (getGroundTempAtTimeInMonths sampleModel 19).2 = none ∧
      (getGroundTempAtTimeInSeconds 365 86400 sampleModel 0).1.timeOfSimInMonths = 0 ∧
      (getGroundTempAtTimeInSeconds 365 86400 sampleModel 0).2 = none := by
  refine ⟨by decide, by decide, by decide, by decide, ?_, ?_⟩
  · simp [getGroundTempAtTimeInSeconds, Rat.ceil, remainder]
  · simp [getGroundTempAtTimeInSeconds, Rat.ceil, remainder, getGroundTemp, Array1D.get?]

theorem Array1D_get_after_set (temps : List ℚ) (i : Nat) (v : ℚ) (h1 : 1 ≤ i)
    (h2 : i ≤ temps.length) : Array1D.get? (Array1D.set temps i v) (i : Int) = some v := by
  unfold Array1D.get? Array1D.set
  have hi : (1 : Int) ≤ (i : Int) := by exact_mod_cast h1
  have ht : ((i : Int) - 1).toNat = i - 1 := by omega
  rw [if_pos hi, ht]
  have hlt : i - 1 < temps.length := by omega
  simp [hlt]

/-- The flag computed by the assignment loop. -/
theorem BuildingSurfaceGTMFactory_loop_flag (r : Nat → ℚ) (indices : List Nat) (temps : List ℚ)
    (gen : Bool) (h : ∀ i ∈ indices, 1 ≤ i ∧ i ≤ temps.length) :
    (BuildingSurfaceGTMFactory.loop r indices (temps, gen)).2 =
      (gen || indices.any (fun i => decide (r i < 15 ∨ r i > 25))) := by
  induction indices generalizing temps gen with
  | nil => simp [BuildingSurfaceGTMFactory.loop]
  | cons i rest ih =>
    have hi := h i (List.mem_cons_self i rest)
    simp only [BuildingSurfaceGTMFactory.loop, Array1D_get_after_set temps i (r i) hi.1 hi.2]
    rw [ih]
    · by_cases hc : r i < 15 ∨ r i > 25
      · simp [hc]
      · have h1 : decide (r i < 15 ∨ r i > 25) = false := decide_eq_false hc
        simp only [if_neg hc, List.any_cons, h1, Bool.false_or]
    · intro j hj
      have := h j (List.mem_cons_of_mem i hj)
      simpa [Array1D.set] using this

/-- The array left by the assignment loop. -/
theorem BuildingSurfaceGTMFactory_loop_temps (r : Nat → ℚ) (temps : List ℚ) (gen : Bool)
    (h : temps.length = 12) :
    (BuildingSurfaceGTMFactory.loop r (List.range' 1 12) (temps, gen)).1 =
      (List.range' 1 12).map r := by
  match temps, h with
  | [a1, a2, a3, a4, a5, a6, a7, a8, a9, a10, a11, a12], _ =>
    simp [BuildingSurfaceGTMFactory.loop, List.range', Array1D.set, Array1D.get?]

/-- C10: given a newly constructed model (no error recorded, twelve array
entries), the factory returns `nullptr` exactly when more than one object is
found, or one object with fewer than 12 numeric values, and then appends nothing
to `groundTempModels`; in every other case it returns a model and appends that
same model.  With one object and at least 12 values the temperatures are the
first twelve input values whatever their range, and the only diagnostics are
the warning and its continuation, shown when a value lies outside 15-25; with no
object all twelve temperatures are 18. -/
theorem BuildingSurfaceGTMFactory_returns_model_unless_input_error
    (ip : InputProcessor) (cur : String) (thisModel : SiteBuildingSurfaceGroundTemps)
    (g : Globals) (objectType : Int) (objectName : String)
    (hnew : thisModel.errorsFound = false)
    (hsize : thisModel.buildingSurfaceGroundTemps.length = 12) :
    ((BuildingSurfaceGTMFactory ip cur thisModel g objectType objectName).1 = none ↔
        (ip.getNumObjectsFound cur > 1 ∨
          (ip.getNumObjectsFound cur = 1 ∧ (ip.getObjectItem cur 1).NumNums < 12))) ∧
      ((BuildingSurfaceGTMFactory ip cur thisModel g objectType objectName).1 = none →
        (BuildingSurfaceGTMFactory ip cur thisModel g objectType objectName).2.groundTempModels =
          g.groundTempModels) ∧
      (∀ m, (BuildingSurfaceGTMFactory ip cur thisModel g objectType objectName).1 = some m →
        (BuildingSurfaceGTMFactory ip cur thisModel g objectType objectName).2.groundTempModels =
          g.groundTempModels ++ [m]) ∧
      (ip.getNumObjectsFound cur = 1 → 12 ≤ (ip.getObjectItem cur 1).NumNums →
        ∃ m, (BuildingSurfaceGTMFactory ip cur thisModel g objectType objectName).1 = some m ∧
          m.buildingSurfaceGroundTemps =
            (List.range' 1 12).map (ip.getObjectItem cur 1).rNumericArgs ∧
          (BuildingSurfaceGTMFactory ip cur thisModel g objectType objectName).2.messages =
            g.messages ++
              (if (List.range' 1 12).any (fun i =>
                    decide ((ip.getObjectItem cur 1).rNumericArgs i < 15 ∨
                      (ip.getObjectItem cur 1).rNumericArgs i > 25)) = true then
                [Message.ShowWarningError
                    (cur ++ ": Some values fall outside the range of 15-25C."),
                  Message.ShowContinueError
                    "These values may be inappropriate.  Please consult the Input Output Reference for more details."]
              else [])) ∧
      (ip.getNumObjectsFound cur = 0 →
        ∃ m, (BuildingSurfaceGTMFactory ip cur thisModel g objectType objectName).1 = some m ∧
          m.buildingSurfaceGroundTemps = List.replicate 12 18) := by
  have hidx : ∀ i ∈ List.range' 1 12, 1 ≤ i ∧ i ≤ thisModel.buildingSurfaceGroundTemps.length := by
    intro i hi
    rw [List.mem_range'_1] at hi
    omega
  have hflag := BuildingSurfaceGTMFactory_loop_flag (ip.getObjectItem cur 1).rNumericArgs
    (List.range' 1 12) thisModel.buildingSurfaceGroundTemps false hidx
  have htemps := BuildingSurfaceGTMFactory_loop_temps (ip.getObjectItem cur 1).rNumericArgs
    thisModel.buildingSurfaceGroundTemps false hsize
  rw [Bool.false_or] at hflag
  generalize hl : BuildingSurfaceGTMFactory.loop (ip.getObjectItem cur 1).rNumericArgs
    (List.range' 1 12) (thisModel.buildingSurfaceGroundTemps, false) = l at hflag htemps
  obtain ⟨temps, gen⟩ := l
  simp only at hflag htemps
  generalize (List.range' 1 12).any (fun i =>
    decide ((ip.getObjectItem cur 1).rNumericArgs i < 15 ∨
      (ip.getObjectItem cur 1).rNumericArgs i > 25)) = outside at hflag ⊢
  subst hflag htemps
  by_cases h1 : ip.getNumObjectsFound cur = 1
  · by_cases h12 : (ip.getObjectItem cur 1).NumNums < 12
    · cases hg : gen <;>
        simp [BuildingSurfaceGTMFactory, h1, h12, hl, hg, hnew]
    · have h12b : 12 ≤ (ip.getObjectItem cur 1).NumNums := by omega
      cases hg : gen <;>
        simp [BuildingSurfaceGTMFactory, h1, h12, h12b, hl, hg, hnew]
  · by_cases hgt : ip.getNumObjectsFound cur > 1
    · simp [BuildingSurfaceGTMFactory, h1, hgt]
      omega
    · have h0 : ¬ (1 < ip.getNumObjectsFound cur) := by omega
      simp [BuildingSurfaceGTMFactory, h1, hgt, h0, hnew]
      intro _
      rw [hsize]
      rfl

/-- Witness for C10: one object with twelve values, two of them out of range;
the factory returns a model that holds exactly these values. -/
theorem BuildingSurfaceGTMFactory_returns_model_unless_input_error_witness :
    sampleNewModel.errorsFound = false ∧
      sampleNewModel.buildingSurfaceGroundTemps.length = 12 ∧
      sampleInput.getNumObjectsFound "Site:GroundTemperature:BuildingSurface" = 1 ∧
      12 ≤ (sampleInput.getObjectItem "Site:GroundTemperature:BuildingSurface" 1).NumNums ∧
      ∃ m, (BuildingSurfaceGTMFactory sampleInput "Site:GroundTemperature:BuildingSurface"
            sampleNewModel sampleGlobals 0 "").1 = some m ∧
          m.buildingSurfaceGroundTemps = [10, 30, 18, 18, 18, 18, 18, 18, 18, 18, 18, 18] := by
  refine ⟨rfl, rfl, rfl, by decide, ?_⟩
  obtain ⟨m, hm, ht, _⟩ :=
    (BuildingSurfaceGTMFactory_returns_model_unless_input_error sampleInput
      "Site:GroundTemperature:BuildingSurface" sampleNewModel sampleGlobals 0 "" rfl rfl).2.2.2.1
      rfl (by decide)
  exact ⟨m, hm, by rw [ht]; simp [List.range', sampleInput]⟩

end GroundTemperatureModeling

end EnergyPlus
